import Mathlib

/-!
Shallow embedding of the xTuring orchestration layer
(`src/xturing/config/__init__.py` and
`src/xturing/trainers/lightning_trainer.py`) and proofs about it.

Python-level failures (AssertionError, UnboundLocalError, TypeError,
AttributeError) are modelled by an explicit error type; fallible code
returns `Except PyError`.
-/

namespace XTuring

/-- The kinds of Python exceptions that the embedded code can raise. -/
inductive PyError where
  | assertionError (msg : String)
  | unboundLocalError (varName : String)
  | typeError (msg : String)
  | attributeError (attrName : String)
  deriving DecidableEq, Repr

/-- The `.type` of a `torch.device` as selected by the config module. -/
inductive DeviceType where
  | cuda
  | mps
  | cpu
  deriving DecidableEq, Repr

/-- Torch floating-point dtypes used by `DEFAULT_DTYPE`. -/
inductive Dtype where
  | float16
  | float32
  deriving DecidableEq, Repr

/-- Result of the hardware probes `torch.cuda.is_available()` and
`torch.backends.mps.is_available()`.  Both probes return a boolean and
never raise, so they are total functions of this record. -/
structure Hardware where
  cuda_is_available : Bool
  mps_is_available : Bool
  deriving DecidableEq, Repr

/-- `DEFAULT_DEVICE` from `config/__init__.py`: probe CUDA first, then
MPS, else fall back to CPU. -/
def DEFAULT_DEVICE (hw : Hardware) : DeviceType :=
  if hw.cuda_is_available then DeviceType.cuda
  else if hw.mps_is_available then DeviceType.mps
  else DeviceType.cpu

/-- `DEFAULT_DTYPE = torch.float16 if DEFAULT_DEVICE.type == "cuda" else
torch.float32`. -/
def DEFAULT_DTYPE (hw : Hardware) : Dtype :=
  if DEFAULT_DEVICE hw = DeviceType.cuda then Dtype.float16 else Dtype.float32

/-- The warning line printed by `config/__init__.py` when the CPU
fallback is taken. -/
def cpuWarning : String :=
  "WARNING: CUDA is not available, using CPU instead, can be very slow"

/-- The lines printed at import time by `config/__init__.py`: exactly one
warning when the selected device is CPU, nothing otherwise. -/
def configModulePrints (hw : Hardware) : List String :=
  if DEFAULT_DEVICE hw = DeviceType.cpu then [cpuWarning] else []

/-- `assert_not_cpu_int8`: `assert DEFAULT_DEVICE.type != "cpu",
"Int8 models are not supported on CPU"`. -/
def assert_not_cpu_int8 (device : DeviceType) : Except PyError Unit :=
  if device ≠ DeviceType.cpu then Except.ok ()
  else Except.error (PyError.assertionError "Int8 models are not supported on CPU")

/-- A torch scalar tensor; `.item` is its Python-number value
(`loss.item()`). -/
structure Tensor where
  item : Rat
  deriving DecidableEq, Repr

/-- The parts of a pytorch `nn.Module` this layer touches: its parameter
list (`model.parameters()`), its train/eval mode flag (`model.train()`
sets it), and whether the object exposes the optional
`print_trainable_parameters` introspection attribute. -/
structure PytorchModel where
  parameters : List Nat
  training : Bool
  has_print_trainable_parameters : Bool
  deriving DecidableEq, Repr

/-- `model.print_trainable_parameters()`: succeeds with a summary line
when the attribute exists, otherwise attribute lookup raises
`AttributeError`. -/
def PytorchModel.printTrainableParameters (m : PytorchModel) :
    Except PyError (List String) :=
  if m.has_print_trainable_parameters then
    Except.ok ["trainable parameters summary"]
  else
    Except.error (PyError.attributeError "print_trainable_parameters")

/-- The model-engine contract consumed by the trainer: `.model`, and the
delegated `.training_step(batch)` / `.validation_step(batch)` computations
(batches are abstracted to their ids). -/
structure ModelEngine where
  model : PytorchModel
  training_step : Nat → Tensor
  validation_step : Nat → Tensor

/-- The optimizer classes actually constructible from the three branches
of `configure_optimizers`.  The `"adam"` branch names `torch.optim.adam`,
which in the torch distribution is the submodule `torch/optim/adam.py`,
not the `Adam` class, so that branch never yields an optimizer. -/
inductive OptimizerKind where
  | adamW
  | deepSpeedCPUAdam
  deriving DecidableEq, Repr

/-- An optimizer as constructed here: a class, the parameter list it was
given, and its learning rate. -/
structure Optimizer where
  kind : OptimizerKind
  params : List Nat
  lr : Rat
  deriving DecidableEq, Repr

/-- `torch.optim.lr_scheduler.LinearLR(optimizer=...)`: a linear
learning-rate decay schedule attached to one optimizer. -/
structure LinearLR where
  optimizer : Optimizer
  deriving DecidableEq, Repr

/-- Calling `torch.optim.adam(...)`: the attribute `torch.optim.adam`
resolves to the submodule `torch/optim/adam.py` (the class is
`torch.optim.Adam`), and calling a module object raises `TypeError`. -/
def torch_optim_adam_call (params : List Nat) (lr : Rat) :
    Except PyError Optimizer :=
  Except.error (PyError.typeError "'module' object is not callable")

/-- State of a `TuringLightningModule` as set up by its `__init__`. -/
structure TuringLightningModule where
  model_engine : ModelEngine
  pytorch_model : PytorchModel
  train_dataset : List Nat
  val_dataset : List Nat
  batch_size : Nat
  learning_rate : Rat
  optimizer_name : String
  saved_path : String
  losses : List Rat
  val_losses : List Rat

/-- `TuringLightningModule.__init__`: stores its arguments, aliases
`pytorch_model` to `model_engine.model`, and starts both loss-history
lists empty. -/
def TuringLightningModule.init (model_engine : ModelEngine)
    (train_dataset val_dataset : List Nat) (batch_size : Nat)
    (learning_rate : Rat) (optimizer_name : String) :
    TuringLightningModule where
  model_engine := model_engine
  pytorch_model := model_engine.model
  train_dataset := train_dataset
  val_dataset := val_dataset
  batch_size := batch_size
  learning_rate := learning_rate
  optimizer_name := optimizer_name
  saved_path := "saved_model"
  losses := []
  val_losses := []

/-- `TuringLightningModule.configure_optimizers`: three string-keyed
branches with no `else`.  For any other name the local `optimizer` is
never bound, so the later `LinearLR(optimizer=optimizer)` line raises
`UnboundLocalError` (the intervening `print(self.optimizer_name)` is a
harmless side effect, omitted here).  On success the method returns a
one-element optimizer list and a one-element scheduler list. -/
def TuringLightningModule.configure_optimizers (m : TuringLightningModule) :
    Except PyError (List Optimizer × List LinearLR) :=
  let optimizerE : Except PyError Optimizer :=
    if m.optimizer_name = "adamw" then
      Except.ok { kind := OptimizerKind.adamW,
                  params := m.pytorch_model.parameters,
                  lr := m.learning_rate }
    else if m.optimizer_name = "adam" then
      torch_optim_adam_call m.pytorch_model.parameters m.learning_rate
    else if m.optimizer_name = "cpu_adam" then
      Except.ok { kind := OptimizerKind.deepSpeedCPUAdam,
                  params := m.pytorch_model.parameters,
                  lr := m.learning_rate }
    else
      Except.error (PyError.unboundLocalError "optimizer")
  match optimizerE with
  | Except.error e => Except.error e
  | Except.ok optimizer => Except.ok ([optimizer], [{ optimizer := optimizer }])

/-- One `self.log(name, value, prog_bar=True)` call. -/
structure LogEntry where
  name : String
  value : Rat
  prog_bar : Bool
  deriving DecidableEq, Repr

/-- `training_step`: delegates to `model_engine.training_step(batch)`,
appends `loss.item()` to `self.losses`, logs it to the progress bar, and
returns the loss tensor. -/
def TuringLightningModule.trainingStep (m : TuringLightningModule)
    (batch : Nat) : TuringLightningModule × LogEntry × Option Tensor :=
  let loss := m.model_engine.training_step batch
  ({ m with losses := m.losses ++ [loss.item] },
   { name := "loss", value := loss.item, prog_bar := true },
   some loss)

/-- `validation_step`: delegates to `model_engine.validation_step(batch)`,
appends `loss.item()` to `self.val_losses`, logs it to the progress bar,
and falls off the end of the function body — it returns `None`. -/
def TuringLightningModule.validationStep (m : TuringLightningModule)
    (batch : Nat) : TuringLightningModule × LogEntry × Option Tensor :=
  let loss := m.model_engine.validation_step batch
  ({ m with val_losses := m.val_losses ++ [loss.item] },
   { name := "val_loss", value := loss.item, prog_bar := true },
   none)

/-- The pytorch_lightning callback objects this layer constructs, plus an
opaque tag for caller-supplied extra callbacks. -/
inductive Callback where
  | learningRateFinder
  | timer (durationSecs : Nat)
  | modelCheckpoint (dirpath : String) (saveOnTrainEpochEnd : Bool)
  | extra (id : Nat)
  deriving DecidableEq, Repr

/-- Whether a callback is a `ModelCheckpoint`. -/
def Callback.isModelCheckpoint : Callback → Bool
  | Callback.modelCheckpoint _ _ => true
  | _ => false

/-- Whether a callback is a `Timer`. -/
def Callback.isTimer : Callback → Bool
  | Callback.timer _ => true
  | _ => false

/-- The configuration handed to the external `pl.Trainer` in each of the
three construction branches (fields not passed in a branch are `none`). -/
structure Trainer where
  num_nodes : Nat
  accelerator : String
  strategy : Option String
  precision : Option Nat
  max_epochs : Nat
  callbacks : List Callback
  enable_checkpointing : Bool
  log_every_n_steps : Nat
  deriving DecidableEq, Repr

/-- pytorch_lightning's `Trainer.checkpoint_callback` property: the first
`ModelCheckpoint` among the configured callbacks; when checkpointing is
enabled and none was supplied the driver installs a default one, and when
checkpointing is disabled it is `None`. -/
def Trainer.checkpointCallback (t : Trainer) : Option Callback :=
  match t.callbacks.find? Callback.isModelCheckpoint with
  | some c => some c
  | none =>
    if t.enable_checkpointing then
      some (Callback.modelCheckpoint "lightning_logs" false)
    else none

/-- Arguments of `LightningTrainer.__init__` that the embedding tracks
(preprocessors and the logger flag play no role in the claims; the
process-wide `DEFAULT_DEVICE` global is passed explicitly). -/
structure TrainerArgs where
  model_engine : ModelEngine
  train_dataset : List Nat
  val_dataset : List Nat
  max_epochs : Nat
  batch_size : Nat
  learning_rate : Rat
  optimizer_name : String
  use_lora : Bool
  use_deepspeed : Bool
  max_training_time_in_secs : Option Nat
  lora_type : Nat
  extra_callbacks : List Callback

/-- The orchestrator object: the wrapped lightning module and the
configured run driver. -/
structure LightningTrainer where
  lightning_model : TuringLightningModule
  trainer : Trainer

/-- `LightningTrainer.__init__`.  Builds the lightning module; collects
conditional callbacks (a `LearningRateFinder` when
`len(train_dataset) > 100`, a `Timer` when a maximum training time is
given); calls `model_engine.model.train()` (mutating the shared model
object, so the module's aliased `pytorch_model` sees it too — the
functional embedding applies the mutation before constructing the
module); tries `print_trainable_parameters()`, swallowing only
`AttributeError`; then constructs the `Trainer` by device/strategy.  In
the LoRA/DeepSpeed branch the collected callback list is REASSIGNED to a
fresh `ModelCheckpoint` plus the caller's extra callbacks, discarding the
conditional callbacks.  Returns the orchestrator and the lines printed
during construction.  (The `saved_model` directory creation is a
filesystem effect with no bearing on the claims.) -/
def LightningTrainer.init (device : DeviceType) (a : TrainerArgs) :
    Except PyError (LightningTrainer × List String) :=
  let model' : PytorchModel := { a.model_engine.model with training := true }
  let engine' : ModelEngine := { a.model_engine with model := model' }
  let lightning_model :=
    TuringLightningModule.init engine' a.train_dataset a.val_dataset
      a.batch_size a.learning_rate a.optimizer_name
  let training_callbacks : List Callback := []
  let training_callbacks :=
    if a.train_dataset.length > 100 then
      training_callbacks ++ [Callback.learningRateFinder]
    else training_callbacks
  let training_callbacks :=
    match a.max_training_time_in_secs with
    | some secs => training_callbacks ++ [Callback.timer secs]
    | none => training_callbacks
  let printsE : Except PyError (List String) :=
    match model'.printTrainableParameters with
    | Except.ok out => Except.ok out
    | Except.error (PyError.attributeError _) => Except.ok []
    | Except.error e => Except.error e
  let trainer : Trainer :=
    if device = DeviceType.cpu then
      { num_nodes := 1, accelerator := "cpu", strategy := none,
        precision := none, max_epochs := a.max_epochs,
        callbacks := training_callbacks, enable_checkpointing := false,
        log_every_n_steps := 50 }
    else if ¬ a.use_lora ∧ ¬ a.use_deepspeed then
      { num_nodes := 1, accelerator := "gpu", strategy := none,
        precision := none, max_epochs := a.max_epochs,
        callbacks := training_callbacks, enable_checkpointing := true,
        log_every_n_steps := 50 }
    else
      let training_callbacks :=
        [Callback.modelCheckpoint "saved_model" true] ++ a.extra_callbacks
      { num_nodes := 1, accelerator := "gpu", strategy := some "auto",
        precision := some a.lora_type, max_epochs := a.max_epochs,
        callbacks := training_callbacks, enable_checkpointing := true,
        log_every_n_steps := 50 }
  match printsE with
  | Except.error e => Except.error e
  | Except.ok prints =>
    Except.ok ({ lightning_model := lightning_model, trainer := trainer }, prints)

/-- What `LightningTrainer.fit` does after the external driver's loop
returns: when `trainer.checkpoint_callback` is not `None` it reads
`best_model_path` (the value is discarded), and the method itself returns
`None`. -/
structure FitResult where
  best_model_path_read : Option String
  returned : Option Tensor
  deriving DecidableEq, Repr

/-- `LightningTrainer.fit`: hands the module to the external driver, then
reads the best checkpoint path when a checkpoint callback exists; nothing
is returned to the caller. -/
def LightningTrainer.fit (lt : LightningTrainer) : FitResult where
  best_model_path_read :=
    (lt.trainer.checkpointCallback).map (fun _ => "best_model_path")
  returned := none

/-- `LightningTrainer.engine`: returns `self.lightning_model.model_engine`. -/
def LightningTrainer.engine (lt : LightningTrainer) : ModelEngine :=
  lt.lightning_model.model_engine

/-! ### Characterizations of `LightningTrainer.init`, for reuse in proofs -/

/-- The engine as mutated by `model_engine.model.train()` during
construction. -/
def engineAfterInit (a : TrainerArgs) : ModelEngine :=
  { a.model_engine with model := { a.model_engine.model with training := true } }

/-- The strategy-independent conditional callbacks collected before the
branch on device/strategy. -/
def conditionalCallbacks (a : TrainerArgs) : List Callback :=
  (if a.train_dataset.length > 100 then [Callback.learningRateFinder] else []) ++
    (match a.max_training_time_in_secs with
     | some secs => [Callback.timer secs]
     | none => [])

/-- The `Trainer` produced by each construction branch. -/
def trainerOf (device : DeviceType) (a : TrainerArgs) : Trainer :=
  if device = DeviceType.cpu then
    { num_nodes := 1, accelerator := "cpu", strategy := none,
      precision := none, max_epochs := a.max_epochs,
      callbacks := conditionalCallbacks a, enable_checkpointing := false,
      log_every_n_steps := 50 }
  else if ¬ a.use_lora ∧ ¬ a.use_deepspeed then
    { num_nodes := 1, accelerator := "gpu", strategy := none,
      precision := none, max_epochs := a.max_epochs,
      callbacks := conditionalCallbacks a, enable_checkpointing := true,
      log_every_n_steps := 50 }
  else
    { num_nodes := 1, accelerator := "gpu", strategy := some "auto",
      precision := some a.lora_type, max_epochs := a.max_epochs,
      callbacks := Callback.modelCheckpoint "saved_model" true :: a.extra_callbacks,
      enable_checkpointing := true, log_every_n_steps := 50 }

/-- The lines printed during construction: the trainable-parameter
summary when the model supports it, else nothing. -/
def initPrints (a : TrainerArgs) : List String :=
  if a.model_engine.model.has_print_trainable_parameters then
    ["trainable parameters summary"]
  else []

/-- `LightningTrainer.init` never raises: it always returns the
orchestrator characterized by `engineAfterInit`, `trainerOf` and
`initPrints`. -/
theorem init_ok (device : DeviceType) (a : TrainerArgs) :
    LightningTrainer.init device a =
      Except.ok
        ({ lightning_model :=
            TuringLightningModule.init (engineAfterInit a) a.train_dataset
              a.val_dataset a.batch_size a.learning_rate a.optimizer_name,
           trainer := trainerOf device a }, initPrints a) := by
  unfold LightningTrainer.init engineAfterInit trainerOf initPrints
    conditionalCallbacks PytorchModel.printTrainableParameters
  by_cases hp : a.model_engine.model.has_print_trainable_parameters = true <;>
    by_cases hl : a.train_dataset.length > 100 <;>
      cases a.max_training_time_in_secs <;>
        simp [hp, hl]

/-- The callback list of the run driver built by construction (the error
branch of `init` is unreachable by `init_ok`). -/
def initCallbacks (device : DeviceType) (a : TrainerArgs) : List Callback :=
  match LightningTrainer.init device a with
  | Except.ok (lt, _) => lt.trainer.callbacks
  | Except.error _ => []

/-- The engine exposed by the constructed orchestrator's accessor. -/
def initEngine (device : DeviceType) (a : TrainerArgs) : ModelEngine :=
  match LightningTrainer.init device a with
  | Except.ok (lt, _) => lt.engine
  | Except.error _ => a.model_engine

theorem initCallbacks_eq (device : DeviceType) (a : TrainerArgs) :
    initCallbacks device a = (trainerOf device a).callbacks := by
  unfold initCallbacks
  rw [init_ok]

theorem initEngine_eq (device : DeviceType) (a : TrainerArgs) :
    initEngine device a = engineAfterInit a := by
  unfold initEngine
  rw [init_ok]
  rfl

/-- The callback list of each branch, as a single conditional. -/
theorem trainerOf_callbacks (device : DeviceType) (a : TrainerArgs) :
    (trainerOf device a).callbacks =
      if device = DeviceType.cpu ∨
          (a.use_lora = false ∧ a.use_deepspeed = false) then
        conditionalCallbacks a
      else
        Callback.modelCheckpoint "saved_model" true :: a.extra_callbacks := by
  unfold trainerOf
  by_cases hdev : device = DeviceType.cpu
  · simp [hdev]
  · by_cases hl : a.use_lora = false <;> by_cases hd : a.use_deepspeed = false <;>
      simp [hdev, hl, hd]

/-! ### Concrete instances used as test inputs -/

/-- A small concrete pytorch model, initially in eval mode, without the
optional introspection attribute. -/
def sampleModel : PytorchModel where
  parameters := [0, 1, 2]
  training := false
  has_print_trainable_parameters := false

/-- A concrete model engine whose step functions return distinct
deterministic losses. -/
def sampleEngine : ModelEngine where
  model := sampleModel
  training_step := fun b => { item := (b : Rat) + 1 }
  validation_step := fun b => { item := (b : Rat) + 2 }

/-- A concrete lightning module over `sampleEngine`, keyed by optimizer
name. -/
def sampleModule (optName : String) : TuringLightningModule :=
  TuringLightningModule.init sampleEngine (List.range 4) (List.range 2) 2
    (1 / 1000) optName

/-- Concrete construction arguments: a 10-example dataset, one epoch, no
LoRA/DeepSpeed, no time limit. -/
def cpuArgs : TrainerArgs where
  model_engine := sampleEngine
  train_dataset := List.range 10
  val_dataset := List.range 4
  max_epochs := 1
  batch_size := 2
  learning_rate := 1 / 1000
  optimizer_name := "adamw"
  use_lora := false
  use_deepspeed := false
  max_training_time_in_secs := none
  lora_type := 16
  extra_callbacks := []

/-- Concrete construction arguments: a 101-example dataset, LoRA enabled,
a 60-second time limit, no extra callbacks. -/
def loraArgs : TrainerArgs where
  model_engine := sampleEngine
  train_dataset := List.range 101
  val_dataset := List.range 4
  max_epochs := 1
  batch_size := 2
  learning_rate := 1 / 1000
  optimizer_name := "adamw"
  use_lora := true
  use_deepspeed := false
  max_training_time_in_secs := some 60
  lora_type := 16
  extra_callbacks := []

/-- Concrete construction arguments: a 101-example dataset, plain
strategy, a 60-second time limit. -/
def bigArgs : TrainerArgs where
  model_engine := sampleEngine
  train_dataset := List.range 101
  val_dataset := List.range 4
  max_epochs := 1
  batch_size := 2
  learning_rate := 1 / 1000
  optimizer_name := "adamw"
  use_lora := false
  use_deepspeed := false
  max_training_time_in_secs := some 60
  lora_type := 16
  extra_callbacks := []

/-! ### Claim theorems -/

/-- C5: the selector probes CUDA, then MPS, then CPU, taking the first
available; the default dtype is float16 iff CUDA was selected; exactly
one warning is printed iff the selected device is CPU (and none
otherwise).  Probing is a total function of the probe results, so it
never raises. -/
theorem C5_device_precision_selector (hw : Hardware) :
    (DEFAULT_DEVICE hw = DeviceType.cuda ↔ hw.cuda_is_available = true) ∧
    (DEFAULT_DEVICE hw = DeviceType.mps ↔
      hw.cuda_is_available = false ∧ hw.mps_is_available = true) ∧
    (DEFAULT_DEVICE hw = DeviceType.cpu ↔
      hw.cuda_is_available = false ∧ hw.mps_is_available = false) ∧
    (DEFAULT_DTYPE hw = Dtype.float16 ↔ DEFAULT_DEVICE hw = DeviceType.cuda) ∧
    (DEFAULT_DTYPE hw = Dtype.float32 ↔ DEFAULT_DEVICE hw ≠ DeviceType.cuda) ∧
    (configModulePrints hw = [cpuWarning] ↔ DEFAULT_DEVICE hw = DeviceType.cpu) ∧
    (configModulePrints hw = [] ↔ DEFAULT_DEVICE hw ≠ DeviceType.cpu) := by
  obtain ⟨c, m⟩ := hw
  cases c <;> cases m <;> decide

/-- C10: `assert_not_cpu_int8` raises `AssertionError` with the message
"Int8 models are not supported on CPU" iff the selected device is CPU,
and returns normally on CUDA and MPS. -/
theorem C10_assert_not_cpu_int8 (d : DeviceType) :
    (assert_not_cpu_int8 d =
        Except.error
          (PyError.assertionError "Int8 models are not supported on CPU") ↔
      d = DeviceType.cpu) ∧
    (assert_not_cpu_int8 d = Except.ok () ↔ d ≠ DeviceType.cpu) := by
  cases d <;> simp [assert_not_cpu_int8]

/-- C1 (code evaluated at the failing inputs): for every optimizer name
outside {"adamw", "adam", "cpu_adam"}, `configure_optimizers` raises
`UnboundLocalError` on the name `optimizer` — an unbound-reference
failure, not a descriptive "unknown optimizer" configuration error. -/
theorem C1_unknown_optimizer_is_unbound_reference (m : TuringLightningModule)
    (h1 : m.optimizer_name ≠ "adamw") (h2 : m.optimizer_name ≠ "adam")
    (h3 : m.optimizer_name ≠ "cpu_adam") :
    m.configure_optimizers =
      Except.error (PyError.unboundLocalError "optimizer") := by
  unfold TuringLightningModule.configure_optimizers
  simp [h1, h2, h3]

/-- C1 witness: at the concrete unsupported name "sgd" the result is the
unbound-reference failure. -/
theorem C1_unknown_optimizer_is_unbound_reference_witness :
    (sampleModule "sgd").optimizer_name ≠ "adamw" ∧
    (sampleModule "sgd").optimizer_name ≠ "adam" ∧
    (sampleModule "sgd").optimizer_name ≠ "cpu_adam" ∧
    (sampleModule "sgd").configure_optimizers =
      Except.error (PyError.unboundLocalError "optimizer") :=
  ⟨by decide, by decide, by decide,
   C1_unknown_optimizer_is_unbound_reference (sampleModule "sgd")
     (by decide) (by decide) (by decide)⟩

/-- C2 (code evaluated at the failing input, and the two working
branches): "adamw" and "cpu_adam" construct an optimizer over exactly the
model's parameter list paired with exactly one `LinearLR` schedule
(one-element lists); but "adam" raises `TypeError`, because
`torch.optim.adam` is the submodule, not the `Adam` class, and a module
object is not callable — so not every supported name succeeds. -/
theorem C2_supported_optimizer_branches (m : TuringLightningModule) :
    (m.optimizer_name = "adamw" →
      m.configure_optimizers =
        Except.ok
          ([{ kind := OptimizerKind.adamW,
              params := m.pytorch_model.parameters, lr := m.learning_rate }],
           [{ optimizer :=
                { kind := OptimizerKind.adamW,
                  params := m.pytorch_model.parameters,
                  lr := m.learning_rate } }])) ∧
    (m.optimizer_name = "cpu_adam" →
      m.configure_optimizers =
        Except.ok
          ([{ kind := OptimizerKind.deepSpeedCPUAdam,
              params := m.pytorch_model.parameters, lr := m.learning_rate }],
           [{ optimizer :=
                { kind := OptimizerKind.deepSpeedCPUAdam,
                  params := m.pytorch_model.parameters,
                  lr := m.learning_rate } }])) ∧
    (m.optimizer_name = "adam" →
      m.configure_optimizers =
        Except.error (PyError.typeError "'module' object is not callable")) := by
  refine ⟨fun h => ?_, fun h => ?_, fun h => ?_⟩ <;>
    unfold TuringLightningModule.configure_optimizers <;>
      simp [h, torch_optim_adam_call]

/-- C2 witness: the three branches evaluated on concrete modules. -/
theorem C2_supported_optimizer_branches_witness :
    (sampleModule "adamw").configure_optimizers =
      Except.ok
        ([{ kind := OptimizerKind.adamW, params := [0, 1, 2], lr := 1 / 1000 }],
         [{ optimizer :=
              { kind := OptimizerKind.adamW, params := [0, 1, 2],
                lr := 1 / 1000 } }]) ∧
    (sampleModule "cpu_adam").configure_optimizers =
      Except.ok
        ([{ kind := OptimizerKind.deepSpeedCPUAdam, params := [0, 1, 2],
            lr := 1 / 1000 }],
         [{ optimizer :=
              { kind := OptimizerKind.deepSpeedCPUAdam, params := [0, 1, 2],
                lr := 1 / 1000 } }]) ∧
    (sampleModule "adam").configure_optimizers =
      Except.error (PyError.typeError "'module' object is not callable") :=
  ⟨(C2_supported_optimizer_branches (sampleModule "adamw")).1 rfl,
   (C2_supported_optimizer_branches (sampleModule "cpu_adam")).2.1 rfl,
   (C2_supported_optimizer_branches (sampleModule "adam")).2.2 rfl⟩

/-- C3 counterexample: with a 101-example training dataset on a non-CPU
device with LoRA enabled, the learning-rate finder is absent from the
run's callback list, so its presence is not independent of the execution
strategy. -/
theorem C3_lr_finder_not_strategy_independent :
    loraArgs.train_dataset.length = 101 ∧
    initCallbacks DeviceType.cuda loraArgs =
      [Callback.modelCheckpoint "saved_model" true] := by
  constructor
  · decide
  · rw [initCallbacks_eq]
    decide

/-- C3 (amended): in the CPU and plain-GPU branches the learning-rate
finder is in the callback list iff the training dataset has more than 100
examples; in the LoRA/DeepSpeed branch the callback list is rebuilt as a
checkpoint callback followed by the caller's extra callbacks, so the
finder appears there only if the caller supplied one. -/
theorem C3_lr_finder_presence (device : DeviceType) (a : TrainerArgs) :
    ((device = DeviceType.cpu ∨ (a.use_lora = false ∧ a.use_deepspeed = false)) →
      (Callback.learningRateFinder ∈ initCallbacks device a ↔
        a.train_dataset.length > 100)) ∧
    (device ≠ DeviceType.cpu →
      ¬ (a.use_lora = false ∧ a.use_deepspeed = false) →
      initCallbacks device a =
        Callback.modelCheckpoint "saved_model" true :: a.extra_callbacks) := by
  rw [initCallbacks_eq, trainerOf_callbacks]
  constructor
  · intro h
    rw [if_pos h]
    unfold conditionalCallbacks
    by_cases hlen : a.train_dataset.length > 100 <;>
      cases a.max_training_time_in_secs <;> simp [hlen]
  · intro hdev hstrat
    rw [if_neg (not_or.mpr ⟨hdev, hstrat⟩)]

/-- C3 witness: the amended statement evaluated on concrete inputs — the
finder is present for a 101-example dataset on CPU, and the LoRA branch's
callback list is exactly the checkpoint callback. -/
theorem C3_lr_finder_presence_witness :
    Callback.learningRateFinder ∈ initCallbacks DeviceType.cpu bigArgs ∧
    initCallbacks DeviceType.cuda loraArgs =
      Callback.modelCheckpoint "saved_model" true :: loraArgs.extra_callbacks :=
  ⟨((C3_lr_finder_presence DeviceType.cpu bigArgs).1 (Or.inl rfl)).mpr
      (by decide),
   (C3_lr_finder_presence DeviceType.cuda loraArgs).2 (by decide) (by decide)⟩

/-- C4 counterexample: with `max_training_time_in_secs = 60` on a non-CPU
device with LoRA enabled, no timer callback is registered, so timer
registration is not independent of the execution strategy. -/
theorem C4_timer_not_strategy_independent :
    loraArgs.max_training_time_in_secs = some 60 ∧
    (initCallbacks DeviceType.cuda loraArgs).filter Callback.isTimer = [] := by
  constructor
  · decide
  · rw [initCallbacks_eq]
    decide

/-- C4 (amended): in the CPU and plain-GPU branches, no timer callback is
registered when `max_training_time_in_secs` is `None`, and exactly one
timer with that duration is registered when it is `some n`; in the
LoRA/DeepSpeed branch the callback list is rebuilt, so the only timers
are those the caller supplied among the extra callbacks. -/
theorem C4_timer_registration (device : DeviceType) (a : TrainerArgs) :
    ((device = DeviceType.cpu ∨ (a.use_lora = false ∧ a.use_deepspeed = false)) →
      (initCallbacks device a).filter Callback.isTimer =
        (match a.max_training_time_in_secs with
         | some n => [Callback.timer n]
         | none => [])) ∧
    (device ≠ DeviceType.cpu →
      ¬ (a.use_lora = false ∧ a.use_deepspeed = false) →
      (initCallbacks device a).filter Callback.isTimer =
        a.extra_callbacks.filter Callback.isTimer) := by
  rw [initCallbacks_eq, trainerOf_callbacks]
  constructor
  · intro h
    rw [if_pos h]
    unfold conditionalCallbacks
    by_cases hlen : a.train_dataset.length > 100 <;>
      cases a.max_training_time_in_secs <;>
        simp [hlen, List.filter_append, Callback.isTimer]
  · intro hdev hstrat
    rw [if_neg (not_or.mpr ⟨hdev, hstrat⟩)]
    simp [Callback.isTimer]

/-- C4 witness: the amended statement evaluated on concrete inputs — on
CPU with a 60-second limit exactly one 60-second timer is registered; in
the LoRA branch with no extra callbacks no timer is registered. -/
theorem C4_timer_registration_witness :
    (initCallbacks DeviceType.cpu bigArgs).filter Callback.isTimer =
      [Callback.timer 60] ∧
    (initCallbacks DeviceType.mps loraArgs).filter Callback.isTimer =
      loraArgs.extra_callbacks.filter Callback.isTimer :=
  ⟨(C4_timer_registration DeviceType.cpu bigArgs).1 (Or.inl rfl),
   (C4_timer_registration DeviceType.mps loraArgs).2 (by decide) (by decide)⟩

/-- The strategy-independent conditional callbacks never contain a
`ModelCheckpoint`. -/
theorem conditionalCallbacks_no_checkpoint (a : TrainerArgs) :
    (conditionalCallbacks a).filter Callback.isModelCheckpoint = [] := by
  unfold conditionalCallbacks
  by_cases hlen : a.train_dataset.length > 100 <;>
    cases a.max_training_time_in_secs <;>
      simp [hlen, List.filter_append, Callback.isModelCheckpoint]

/-- On CPU the configured run driver has no checkpoint callback. -/
theorem trainerOf_cpu_no_checkpoint_callback (a : TrainerArgs) :
    (trainerOf DeviceType.cpu a).checkpointCallback = none := by
  unfold Trainer.checkpointCallback
  have hfind : (trainerOf DeviceType.cpu a).callbacks.find?
      Callback.isModelCheckpoint = none := by
    rw [List.find?_eq_none]
    intro x hx
    have h := conditionalCallbacks_no_checkpoint a
    rw [List.filter_eq_nil_iff] at h
    have hx' : x ∈ conditionalCallbacks a := by
      rw [trainerOf_callbacks, if_pos (Or.inl rfl)] at hx
      exact hx
    simpa using h x hx'
  rw [hfind]
  rfl

/-- C6: whenever the selected device is CPU, construction succeeds and
configures the run driver with a single node, the CPU accelerator and
checkpointing disabled; no checkpoint callback is in the callback list,
the driver's checkpoint-callback slot is empty, and consequently `fit`
completes without reading any best-checkpoint path. -/
theorem C6_cpu_run_driver (a : TrainerArgs) :
    ∃ lt prints,
      LightningTrainer.init DeviceType.cpu a = Except.ok (lt, prints) ∧
      lt.trainer.num_nodes = 1 ∧
      lt.trainer.accelerator = "cpu" ∧
      lt.trainer.enable_checkpointing = false ∧
      lt.trainer.callbacks.filter Callback.isModelCheckpoint = [] ∧
      lt.trainer.checkpointCallback = none ∧
      (lt.fit).best_model_path_read = none ∧
      (lt.fit).returned = none := by
  refine ⟨_, _, init_ok DeviceType.cpu a, ?_, ?_, ?_, ?_, ?_, ?_, rfl⟩
  · rfl
  · rfl
  · rfl
  · show (trainerOf DeviceType.cpu a).callbacks.filter Callback.isModelCheckpoint = []
    rw [trainerOf_callbacks, if_pos (Or.inl rfl)]
    exact conditionalCallbacks_no_checkpoint a
  · exact trainerOf_cpu_no_checkpoint_callback a
  · show (LightningTrainer.fit _).best_model_path_read = none
    unfold LightningTrainer.fit
    simp [trainerOf_cpu_no_checkpoint_callback a]

/-- C7 counterexample: `validation_step` falls off the end of its body,
so its output is `None`, not the scalar loss tensor the model engine
produced (which at this input is the tensor with value 2). -/
theorem C7_validation_step_returns_none :
    ((sampleModule "adamw").validationStep 0).2.2 = none ∧
    (sampleModule "adamw").model_engine.validation_step 0 = { item := 2 } := by
  constructor
  · rfl
  · show ({ item := ((0 : Nat) : Rat) + 2 } : Tensor) = { item := 2 }
    norm_num [Tensor.mk.injEq]

/-- C7 (amended): `training_step` delegates the loss entirely to the
model engine, appends `loss.item()` to the in-memory history, logs it to
the progress display and returns the loss tensor; `validation_step`
delegates, records into its own history and logs likewise, but returns
nothing. -/
theorem C7_step_adapters (m : TuringLightningModule) (batch : Nat) :
    ((m.trainingStep batch).1.losses =
      m.losses ++ [(m.model_engine.training_step batch).item]) ∧
    ((m.trainingStep batch).2.1 =
      { name := "loss", value := (m.model_engine.training_step batch).item,
        prog_bar := true }) ∧
    ((m.trainingStep batch).2.2 = some (m.model_engine.training_step batch)) ∧
    ((m.validationStep batch).1.val_losses =
      m.val_losses ++ [(m.model_engine.validation_step batch).item]) ∧
    ((m.validationStep batch).2.1 =
      { name := "val_loss",
        value := (m.model_engine.validation_step batch).item,
        prog_bar := true }) ∧
    ((m.validationStep batch).2.2 = none) :=
  ⟨rfl, rfl, rfl, rfl, rfl, rfl⟩

/-- C8 counterexample: the engine exposed by the accessor after
construction is not the engine unchanged — construction switched its
model into training mode, while the engine passed in had
`training = false`. -/
theorem C8_engine_mutated_by_construction :
    (initEngine DeviceType.cpu cpuArgs).model.training = true ∧
    cpuArgs.model_engine.model.training = false :=
  ⟨rfl, rfl⟩

/-- C8 (amended): `fit()` returns nothing to the caller and reads the
best-checkpoint path exactly when the driver has a checkpoint callback;
`engine()` exposes the engine that was passed to the constructor, with
its model switched into training mode by construction (everything else
unchanged). -/
theorem C8_fit_and_engine_accessor (device : DeviceType) (a : TrainerArgs) :
    ∃ lt prints,
      LightningTrainer.init device a = Except.ok (lt, prints) ∧
      lt.engine = engineAfterInit a ∧
      lt.engine.model.parameters = a.model_engine.model.parameters ∧
      lt.engine.model.training = true ∧
      (lt.fit).returned = none ∧
      ((lt.fit).best_model_path_read.isSome =
        lt.trainer.checkpointCallback.isSome) := by
  refine ⟨_, _, init_ok device a, rfl, rfl, rfl, rfl, ?_⟩
  show ((LightningTrainer.fit _).best_model_path_read).isSome = _
  unfold LightningTrainer.fit
  cases (trainerOf device a).checkpointCallback <;> rfl

/-- C9: construction switches the model engine's model (and the module's
aliased `pytorch_model`) into training mode and attempts the
trainable-parameter summary print; construction always succeeds, and
when the model lacks the introspection attribute the `AttributeError` is
swallowed and nothing is printed. -/
theorem C9_train_mode_and_silent_introspection (device : DeviceType)
    (a : TrainerArgs) :
    ∃ lt prints,
      LightningTrainer.init device a = Except.ok (lt, prints) ∧
      lt.lightning_model.model_engine.model.training = true ∧
      lt.lightning_model.pytorch_model.training = true ∧
      prints =
        (if a.model_engine.model.has_print_trainable_parameters then
          ["trainable parameters summary"]
        else []) :=
  ⟨_, _, init_ok device a, rfl, rfl, rfl⟩

end XTuring
